import Mathlib

/-!
Verification development for the frontend deployment script (`deploy.py`).

The script is shallowly embedded here:
* strings are modelled as `List Char`;
* the process environment (`os.environ`) is an explicit map `Env`;
* the filesystem (which `.env` files and manifest templates exist) is an
  explicit record `Fs` / fields of `World`;
* every external command invocation (`subprocess.run`) is mediated by an
  oracle `World.run : List Char → Outcome` mapping the command line to the
  outcome the external tool produced, and the pipeline `deploy` threads
  these outcomes exactly as the straight-line Python does, recording which
  steps ran.

All definitions are computable so that concrete runs evaluate by `decide`.
-/

/-! ## Basic string utilities (models of the Python `str` methods used) -/

/-- ASCII whitespace test, modelling what `str.strip()` removes for the
configuration files at hand (ASCII suffices for this model). -/
def isSpaceChar (c : Char) : Bool :=
  c = ' ' || c = '\t' || c = '\n' || c = '\r' || c = '\x0b' || c = '\x0c'

/-- Model of Python `str.strip()`: drop whitespace from both ends. -/
def strip (s : List Char) : List Char :=
  ((s.dropWhile isSpaceChar).reverse.dropWhile isSpaceChar).reverse

/-- Model of Python `line.split("=", 1)`: split at the first `'='`,
returning `none` when no `'='` occurs (the `"=" in line` test). -/
def splitEq : List Char → Option (List Char × List Char)
  | [] => none
  | c :: s =>
    if c = '=' then some ([], s)
    else (splitEq s).map (fun p => (c :: p.1, p.2))

/-- Model of one iteration of the `load_env_file` loop in `deploy.py`
(lines 36-43): strip the line, delete every `'\r'`, skip blank lines,
comment lines and lines without `'='`, otherwise split at the first `'='`
and strip key and value. -/
def parseLine (l : List Char) : Option (List Char × List Char) :=
  let l1 := (strip l).filter (fun c => c ≠ '\r')
  if l1 = [] then none
  else if l1.head? = some '#' then none
  else match splitEq l1 with
    | none => none
    | some (k, v) => some (strip k, strip v)

/-! ## The process environment and `.env` loading -/

/-- The process environment `os.environ`: a total map from key to optional
value. -/
def Env : Type := List Char → Option (List Char)

/-- An environment with no variables set. -/
def emptyEnv : Env := fun _ => none

/-- `os.environ[k] = v`. -/
def envSet (e : Env) (k v : List Char) : Env :=
  fun x => if x = k then some v else e x

/-- `os.getenv(k, d)`: the value if the key is set (even to the empty
string), the default otherwise. -/
def getD (e : Env) (k d : List Char) : List Char :=
  (e k).getD d

/-- Load a list of parsed key/value pairs into the environment in order
(later assignments to the same key overwrite earlier ones). -/
def loadPairs (e : Env) (ps : List (List Char × List Char)) : Env :=
  ps.foldl (fun e p => envSet e p.1 p.2) e

/-- The key/value pairs a `.env` file (given as its list of lines)
contributes, in file order — `load_env_file`'s loop body applied to each
line. -/
def filePairs (lines : List (List Char)) : List (List Char × List Char) :=
  lines.filterMap parseLine

/-- Model of `load_env_file` (deploy.py lines 36-43): parse the file and
assign each pair into the environment in order. -/
def loadFile (e : Env) (lines : List (List Char)) : Env :=
  loadPairs e (filePairs lines)

/-- The value a single source assigns to a key (the last assignment in the
file), `none` when the source does not define the key. -/
def sourceValue (lines : List (List Char)) (k : List Char) : Option (List Char) :=
  loadFile emptyEnv lines k

/-- The filesystem as seen by `load_env`: the optional local `.env` next to
the script, and a map from path to optional file content for the VPS
override paths. -/
structure Fs where
  localEnv : Option (List (List Char))
  files : List Char → Option (List (List Char))

/-- The fallback half of `load_env` (deploy.py lines 65-72): try the
default VPS path `/etc/<service>/.env`, else report whether the local
`.env` existed. -/
def loadEnvFallback (e1 : Env) (fs : Fs) : Env × Bool :=
  let sn := getD e1 "DEPLOY_SERVICE_NAME".toList "frontend".toList
  let path := "/etc/".toList ++ sn ++ "/.env".toList
  match fs.files path with
  | some lines => (loadFile e1 lines, true)
  | none => (e1, fs.localEnv.isSome)

/-- Model of `load_env` (deploy.py lines 46-72): load the local `.env`
first (if present), then the VPS override selected by
`DEPLOY_VPS_ENV_PATH` if that is set and the file exists, else the default
VPS path; the Boolean is `load_env`'s return value (whether any
configuration source was found). -/
def loadEnv (e0 : Env) (fs : Fs) : Env × Bool :=
  let e1 := match fs.localEnv with
    | some lines => loadFile e0 lines
    | none => e0
  let vp := getD e1 "DEPLOY_VPS_ENV_PATH".toList []
  if vp ≠ [] then
    match fs.files vp with
    | some lines => (loadFile e1 lines, true)
    | none => loadEnvFallback e1 fs
  else loadEnvFallback e1 fs

/-! ## Configuration resolution and validation -/

/-- The resolved module-level configuration of `deploy.py` (lines 86-97). -/
structure Config where
  serviceName : List Char
  namespc : List Char
  domain : List Char
  githubOwner : List Char
  registry : List Char
  githubToken : List Char
  viteDatabaseApiUrl : List Char
  viteApiUrl : List Char
  viteGoogleClientId : List Char
deriving DecidableEq

/-- Model of the module-level configuration reads (deploy.py lines 86-97),
including the defaulting: namespace defaults to the service name and the
registry defaults to `ghcr.io/` + owner. -/
def resolveConfig (e : Env) : Config :=
  let sn := getD e "DEPLOY_SERVICE_NAME".toList "frontend".toList
  let owner := getD e "DEPLOY_GITHUB_OWNER".toList []
  { serviceName := sn
    namespc := getD e "DEPLOY_NAMESPACE".toList sn
    domain := getD e "DEPLOY_DOMAIN".toList []
    githubOwner := owner
    registry := getD e "DEPLOY_REGISTRY".toList ("ghcr.io/".toList ++ owner)
    githubToken := getD e "GITHUB_TOKEN".toList []
    viteDatabaseApiUrl := getD e "VITE_DATABASE_API_URL".toList []
    viteApiUrl := getD e "VITE_API_URL".toList []
    viteGoogleClientId := getD e "VITE_GOOGLE_CLIENT_ID".toList [] }

/-- Model of the module-level validation (deploy.py lines 99-108): three
`if not X: print(...); sys.exit(1)` checks, in program order, each naming
exactly one variable; returns the name in the first failing check, `none`
when all three pass. -/
def validateConfig (c : Config) : Option (List Char) :=
  if c.githubToken = [] then some "GITHUB_TOKEN".toList
  else if c.githubOwner = [] then some "DEPLOY_GITHUB_OWNER".toList
  else if c.domain = [] then some "DEPLOY_DOMAIN".toList
  else none

/-- `IMAGE_NAME = f"REGISTRY/SERVICE_NAME"` (deploy.py line 91). -/
def imageName (c : Config) : List Char :=
  c.registry ++ "/".toList ++ c.serviceName

/-- The revision-tagged image reference (deploy.py line 133). -/
def imageTag (c : Config) (sha : List Char) : List Char :=
  imageName c ++ ":".toList ++ sha

/-- The `latest`-tagged image reference (deploy.py line 134). -/
def imageLatest (c : Config) : List Char :=
  imageName c ++ ":latest".toList

/-! ## External command lines built by the pipeline -/

/-- `"git rev-parse --short HEAD"` (deploy.py line 126). -/
def gitCmd : List Char := "git rev-parse --short HEAD".toList

/-- One `--build-arg NAME=value` fragment (deploy.py lines 148, 150, 152). -/
def buildArg (name value : List Char) : List Char :=
  "--build-arg ".toList ++ name ++ "=".toList ++ value

/-- The name of the first build-time variable. -/
def nameDB : List Char := "VITE_DATABASE_API_URL".toList

/-- The name of the second build-time variable. -/
def nameAPI : List Char := "VITE_API_URL".toList

/-- The name of the third build-time variable. -/
def nameGC : List Char := "VITE_GOOGLE_CLIENT_ID".toList

/-- The `build_args` list (deploy.py lines 146-152): one fragment per
build-time variable, appended only when the variable's value is non-empty. -/
def buildArgs (c : Config) : List (List Char) :=
  (if c.viteDatabaseApiUrl ≠ [] then
    [buildArg nameDB c.viteDatabaseApiUrl] else [])
  ++ (if c.viteApiUrl ≠ [] then
    [buildArg nameAPI c.viteApiUrl] else [])
  ++ (if c.viteGoogleClientId ≠ [] then
    [buildArg nameGC c.viteGoogleClientId] else [])

/-- The docker build command line (deploy.py line 154). -/
def buildCmd (c : Config) (sha : List Char) : List Char :=
  "docker build --platform linux/amd64 ".toList
  ++ List.intercalate [' '] (buildArgs c)
  ++ " -t ".toList ++ imageTag c sha
  ++ " -t ".toList ++ imageLatest c
  ++ " .".toList

/-- The GHCR login command line (deploy.py line 161). -/
def loginCmd (c : Config) : List Char :=
  "echo ".toList ++ c.githubToken
  ++ " | docker login ghcr.io -u ".toList ++ c.githubOwner
  ++ " --password-stdin".toList

/-- A docker push command line (deploy.py lines 170-171). -/
def pushCmd (img : List Char) : List Char :=
  "docker push ".toList ++ img

/-- The namespace provisioning command line (deploy.py line 177). -/
def nsCmd (c : Config) : List Char :=
  "kubectl create namespace ".toList ++ c.namespc
  ++ " --dry-run=client -o yaml | kubectl apply -f -".toList

/-- The pull-secret provisioning command line (deploy.py lines 187-192). -/
def secretCmd (c : Config) : List Char :=
  "kubectl create secret docker-registry ghcr-login-secret -n ".toList
  ++ c.namespc
  ++ " --docker-server=ghcr.io --docker-username=".toList ++ c.githubOwner
  ++ " --docker-password=".toList ++ c.githubToken
  ++ " --dry-run=client -o yaml | kubectl apply -f -".toList

/-- The manifest apply command line (deploy.py line 218). -/
def applyCmd : List Char := "kubectl apply -f -".toList

/-- The rollout confirmation command line (deploy.py line 230). -/
def rolloutCmd (c : Config) : List Char :=
  "kubectl rollout status deployment/".toList ++ c.serviceName
  ++ "-app -n ".toList ++ c.namespc ++ " --timeout=5m".toList

/-- The primary manifest template path (deploy.py line 201), relative to
the script directory. -/
def primaryManifestPath : List Char := "k8s/deployment.yaml".toList

/-- The service-name-derived fallback manifest path (deploy.py line 203). -/
def fallbackManifestPath (c : Config) : List Char :=
  "k8s/".toList ++ c.serviceName ++ "-deployment.yaml".toList

/-! ## Placeholder substitution (`str.replace`) -/

/-- Worker for `replaceAll` with a non-empty pattern `p :: ps`: greedy
left-to-right non-overlapping replacement, exactly Python's
`str.replace` for a non-empty pattern. -/
def replaceAllGo (p : Char) (ps rep : List Char) : List Char → List Char
  | [] => []
  | c :: s =>
    if (p :: ps).isPrefixOf (c :: s) then
      rep ++ replaceAllGo p ps rep (s.drop ps.length)
    else
      c :: replaceAllGo p ps rep s
termination_by s => s.length
decreasing_by
  · simp only [List.length_drop, List.length_cons]; omega
  · simp only [List.length_cons]; omega

/-- Model of Python `s.replace(pat, rep)` for the non-empty patterns used
by `deploy.py`; on the empty pattern (never used there) it returns `s`
unchanged. -/
def replaceAll (pat rep s : List Char) : List Char :=
  match pat with
  | [] => s
  | p :: ps => replaceAllGo p ps rep s

/-- The service-name placeholder token. -/
def tokSN : List Char := "DEPLOY_SERVICE_NAME".toList

/-- The namespace placeholder token. -/
def tokNS : List Char := "DEPLOY_NAMESPACE".toList

/-- The image-reference placeholder token. -/
def tokIMG : List Char := "CONTAINER_IMAGE".toList

/-- The domain placeholder token. -/
def tokDOM : List Char := "DEPLOY_DOMAIN".toList

/-- Model of the manifest substitution block (deploy.py lines 211-214):
four sequential `str.replace` passes in the fixed program order
service-name, namespace, image-reference, domain. -/
def renderManifest (sn ns img dom t : List Char) : List Char :=
  replaceAll tokDOM dom
    (replaceAll tokIMG img
      (replaceAll tokNS ns
        (replaceAll tokSN sn t)))

/-- Modelled from the spec: simultaneous (single-pass) substitution of an
ordered placeholder map, in which a substituted value is never rescanned
for further placeholders. Used only as the comparison point showing that
the code's sequential substitution can differ from it; `fuel` bounds the
scan by the input length (each iteration consumes at least one character). -/
def simSubstGo (m : List (List Char × List Char)) : Nat → List Char → List Char
  | 0, s => s
  | _ + 1, [] => []
  | fuel + 1, c :: s =>
    match m.find? (fun p => p.1 ≠ [] && p.1.isPrefixOf (c :: s)) with
    | some p => p.2 ++ simSubstGo m fuel ((c :: s).drop p.1.length)
    | none => c :: simSubstGo m fuel s

/-- Modelled from the spec: simultaneous substitution over a whole string. -/
def simultaneousSubst (m : List (List Char × List Char)) (s : List Char) : List Char :=
  simSubstGo m s.length s

/-! ## The pipeline -/

/-- The outcome of one external command invocation: a zero exit code with
captured stdout, or a non-zero exit code with captured stderr (what
`subprocess.run(check=True)` turns into a `CalledProcessError`). -/
inductive Outcome where
  | ok : List Char → Outcome
  | err : List Char → Outcome
deriving DecidableEq

/-- Whether the invocation exited with code 0. -/
def Outcome.isOk : Outcome → Bool
  | .ok _ => true
  | .err _ => false

/-- The captured stdout of a successful invocation. -/
def Outcome.stdout : Outcome → List Char
  | .ok o => o
  | .err _ => []

/-- The captured stderr of a failed invocation. -/
def Outcome.stderr : Outcome → List Char
  | .ok _ => []
  | .err e => e

/-- The external world a run of `deploy` observes: the outcome each
command line produces, and the optional contents of the two manifest
template paths. -/
structure World where
  run : List Char → Outcome
  manifestPrimary : Option (List Char)
  manifestFallback : Option (List Char)

/-- The two failure shapes of `deploy` (deploy.py lines 248-256): a
`CalledProcessError` carrying the command and its stderr, and the
`FileNotFoundError` raised with the manifest path when no template is
found. -/
inductive Failure where
  | cmdFailed : List Char → List Char → Failure
  | manifestNotFound : List Char → Failure
deriving DecidableEq

/-- One external command invocation as observed during a run: the pipeline
step it belongs to (1-8), the command line, and whether it succeeded. -/
structure Event where
  step : Nat
  cmd : List Char
  ok : Bool
deriving DecidableEq

/-- The observable outcome of one call to `deploy`: the command
invocations in order, the pipeline steps entered in order (with whether
each completed), the rendered manifest document piped to `kubectl apply`
(when step 7 got that far), and the failure that aborted the run, if any. -/
structure Run where
  events : List Event
  steps : List (Nat × Bool)
  applied : Option (List Char)
  failure : Option Failure
deriving DecidableEq

/-- Prepend an already-succeeded invocation to a run. -/
def consRun (ev : Event) (st : Nat × Bool) (r : Run) : Run :=
  { events := ev :: r.events, steps := st :: r.steps,
    applied := r.applied, failure := r.failure }

/-- A single-command pipeline step: run the command; on failure abort the
whole run with a `cmdFailed` carrying the command and its stderr, on
success continue with the rest of the pipeline. -/
def stepRun (w : World) (n : Nat) (cmd : List Char) (rest : Run) : Run :=
  if (w.run cmd).isOk then consRun ⟨n, cmd, true⟩ (n, true) rest
  else
    { events := [⟨n, cmd, false⟩], steps := [(n, false)],
      applied := none, failure := some (.cmdFailed cmd ((w.run cmd).stderr)) }

/-- Step 4 (deploy.py lines 169-171): push the revision-tagged image, then
the latest-tagged image; the step fails if either push fails. -/
def pushStep (w : World) (tag latest : List Char) (rest : Run) : Run :=
  if (w.run (pushCmd tag)).isOk then
    if (w.run (pushCmd latest)).isOk then
      { events := ⟨4, pushCmd tag, true⟩ :: ⟨4, pushCmd latest, true⟩ :: rest.events,
        steps := (4, true) :: rest.steps,
        applied := rest.applied, failure := rest.failure }
    else
      { events := [⟨4, pushCmd tag, true⟩, ⟨4, pushCmd latest, false⟩],
        steps := [(4, false)], applied := none,
        failure := some (.cmdFailed (pushCmd latest) ((w.run (pushCmd latest)).stderr)) }
  else
    { events := [⟨4, pushCmd tag, false⟩], steps := [(4, false)],
      applied := none,
      failure := some (.cmdFailed (pushCmd tag) ((w.run (pushCmd tag)).stderr)) }

/-- The manifest lookup (deploy.py lines 201-206): the primary path if it
exists, else the service-name-derived fallback path. -/
def manifestLookup (w : World) : Option (List Char) :=
  match w.manifestPrimary with
  | some m => some m
  | none => w.manifestFallback

/-- Step 7 (deploy.py lines 199-225): locate the template, substitute the
four placeholders, pipe the rendered document to `kubectl apply`; when
neither template path exists, abort with the `FileNotFoundError` whose
message carries the (fallback) path the variable holds at that point. -/
def manifestStep (c : Config) (w : World) (tag : List Char) (rest : Run) : Run :=
  match manifestLookup w with
  | none =>
    { events := [], steps := [(7, false)], applied := none,
      failure := some (.manifestNotFound (fallbackManifestPath c)) }
  | some content =>
    let doc := renderManifest c.serviceName c.namespc tag c.domain content
    if (w.run applyCmd).isOk then
      { events := ⟨7, applyCmd, true⟩ :: rest.events,
        steps := (7, true) :: rest.steps,
        applied := some doc, failure := rest.failure }
    else
      { events := [⟨7, applyCmd, false⟩], steps := [(7, false)],
        applied := some doc,
        failure := some (.cmdFailed applyCmd ((w.run applyCmd).stderr)) }

/-- Step 8 (deploy.py lines 227-235): wait for the rollout. -/
def rolloutStep (c : Config) (w : World) : Run :=
  if (w.run (rolloutCmd c)).isOk then
    { events := [⟨8, rolloutCmd c, true⟩], steps := [(8, true)],
      applied := none, failure := none }
  else
    { events := [⟨8, rolloutCmd c, false⟩], steps := [(8, false)],
      applied := none,
      failure := some (.cmdFailed (rolloutCmd c) ((w.run (rolloutCmd c)).stderr)) }

/-- The short revision identifier a run observes:
`git rev-parse --short HEAD` output, stripped (deploy.py line 132). -/
def shaOf (w : World) : List Char :=
  strip ((w.run gitCmd).stdout)

/-- Model of `deploy()` (deploy.py lines 115-256): the fixed fail-fast
sequence of eight steps. Step 1 queries the source revision and derives
the two image references; each later step runs only if every earlier step
succeeded, exactly as the straight-line `try` block does. -/
def deploy (c : Config) (w : World) : Run :=
  if (w.run gitCmd).isOk then
    let sha := shaOf w
    consRun ⟨1, gitCmd, true⟩ (1, true)
      (stepRun w 2 (buildCmd c sha)
        (stepRun w 3 (loginCmd c)
          (pushStep w (imageTag c sha) (imageLatest c)
            (stepRun w 5 (nsCmd c)
              (stepRun w 6 (secretCmd c)
                (manifestStep c w (imageTag c sha)
                  (rolloutStep c w)))))))
  else
    { events := [⟨1, gitCmd, false⟩], steps := [(1, false)],
      applied := none,
      failure := some (.cmdFailed gitCmd ((w.run gitCmd).stderr)) }

/-- The first step whose record in the step trace is a failure. -/
def firstFailStep (r : Run) : Option Nat :=
  (r.steps.find? (fun p => !p.2)).map (fun p => p.1)

/-- The step trace of a run in which the first `n` steps succeed. -/
def okSteps (n : Nat) : List (Nat × Bool) :=
  (List.range' 1 n).map (fun i => (i, true))

/-- The step trace of a run failing first at step `k`: steps `1..k-1`
succeed, step `k` fails, nothing follows. -/
def failSteps (k : Nat) : List (Nat × Bool) :=
  (List.range' 1 (k - 1)).map (fun i => (i, true)) ++ [(k, false)]

/-- The failure text printed by the two `except` handlers (deploy.py lines
248-256), modelled as the concatenation of the printed lines; the stderr
line is printed only when stderr is non-empty. -/
def failureReport : Failure → List Char
  | .cmdFailed cmd err =>
    "DEPLOYMENT FAILED Command failed: ".toList ++ cmd
    ++ (if err ≠ [] then " Error: ".toList ++ err else [])
  | .manifestNotFound p =>
    "DEPLOYMENT FAILED: No k8s manifest found at ".toList ++ p

/-! ## The whole process (module level + `deploy()`) -/

/-- The distinct fatal error classes the process can report before or
during the pipeline (deploy.py lines 80-83, 99-108, 248-256). -/
inductive ProgramError where
  | noConfigurationFound
  | configurationError : List Char → ProgramError
  | pipeline : Failure → ProgramError
deriving DecidableEq

/-- The observable result of one process run: exit code, the external
commands the pipeline invoked, and the fatal error reported, if any. -/
structure ProgResult where
  exit : Nat
  events : List Event
  error : Option ProgramError
deriving DecidableEq

/-- Model of the module-level flow of `deploy.py`: load the environment
(exit 1 with the no-configuration message when `load_env` returns false,
lines 80-83), resolve and validate the configuration (exit 1 naming the
first missing variable, lines 99-108), then run the pipeline; the process
exits 0 exactly when the pipeline finishes without failure. -/
def mainProgram (e0 : Env) (fs : Fs) (w : World) : ProgResult :=
  match loadEnv e0 fs with
  | (_, false) => { exit := 1, events := [], error := some .noConfigurationFound }
  | (e, true) =>
    let c := resolveConfig e
    match validateConfig c with
    | some missing =>
      { exit := 1, events := [], error := some (.configurationError missing) }
    | none =>
      let r := deploy c w
      { exit := if r.failure = none then 0 else 1,
        events := r.events,
        error := r.failure.map .pipeline }

/-- Whether the reported fatal error is a command failure (and hence
carries a command line and stderr in its report). -/
def failureHasCommand (r : ProgResult) : Bool :=
  match r.error with
  | some (.pipeline (.cmdFailed _ _)) => true
  | _ => false

/-! ## Environment-merge lemmas -/

/-- Looking up a key after loading a pair list: the last assignment in the
list wins; a key the list never assigns is left as the underlying
environment has it. -/
theorem loadPairs_lookup (ps : List (List Char × List Char)) (e : Env) (k : List Char) :
    loadPairs e ps k = match loadPairs emptyEnv ps k with
      | some v => some v
      | none => e k := by
  induction ps generalizing e with
  | nil => simp [loadPairs, emptyEnv]
  | cons p ps ih =>
    show loadPairs (envSet e p.1 p.2) ps k = _
    rw [ih (envSet e p.1 p.2)]
    show _ = match loadPairs (envSet emptyEnv p.1 p.2) ps k with
      | some v => some v
      | none => e k
    rw [ih (envSet emptyEnv p.1 p.2)]
    cases h : loadPairs emptyEnv ps k with
    | some v => rfl
    | none =>
      simp only [envSet, emptyEnv]
      by_cases hk : k = p.1 <;> simp [hk]

/-- Looking up a key after loading a file: the source's value if the
source defines the key, the underlying environment's value otherwise. -/
theorem loadFile_lookup (lines : List (List Char)) (e : Env) (k : List Char) :
    loadFile e lines k = match sourceValue lines k with
      | some v => some v
      | none => e k :=
  loadPairs_lookup (filePairs lines) e k

/-- C2: with a local source and an override source both present, the
resolved environment is the local source loaded first and the override
source loaded on top: a key the override source defines resolves to the
override source's value; a key only the local source defines resolves to
the local source's value even though an override source is present; and no
key defined by either source is absent from the resolved environment. -/
theorem claim_C2_override_precedence (e0 : Env) (fs : Fs) (L O : List (List Char))
    (hL : fs.localEnv = some L)
    (hvp : getD (loadFile e0 L) "DEPLOY_VPS_ENV_PATH".toList [] ≠ [])
    (hO : fs.files (getD (loadFile e0 L) "DEPLOY_VPS_ENV_PATH".toList []) = some O) :
    (loadEnv e0 fs).1 = loadFile (loadFile e0 L) O
    ∧ (∀ k v, sourceValue O k = some v → (loadEnv e0 fs).1 k = some v)
    ∧ (∀ k v, sourceValue O k = none → sourceValue L k = some v →
        (loadEnv e0 fs).1 k = some v)
    ∧ (∀ k, (sourceValue L k ≠ none ∨ sourceValue O k ≠ none) →
        (loadEnv e0 fs).1 k ≠ none) := by
  have hres : loadEnv e0 fs = (loadFile (loadFile e0 L) O, true) := by
    unfold loadEnv
    rw [hL]
    simp only [hvp, if_pos, ne_eq, not_false_iff, if_true, hO]
  rw [hres]
  refine ⟨rfl, ?_, ?_, ?_⟩
  · intro k v hv
    show loadFile (loadFile e0 L) O k = some v
    rw [loadFile_lookup, hv]
  · intro k v hO' hLv
    show loadFile (loadFile e0 L) O k = some v
    rw [loadFile_lookup, hO', loadFile_lookup, hLv]
  · intro k hk
    show loadFile (loadFile e0 L) O k ≠ none
    rw [loadFile_lookup]
    cases hOk : sourceValue O k with
    | some v => simp
    | none =>
      rw [loadFile_lookup]
      cases hLk : sourceValue L k with
      | some v => simp
      | none => simp [hOk, hLk] at hk

/-- A concrete local file, used as witness input: it sets the override
path, a key `A` only it defines, and a key `B` the override also defines. -/
def wLocalLines : List (List Char) :=
  ["DEPLOY_VPS_ENV_PATH=/etc/x/.env".toList, "A=1".toList, "B=2".toList]

/-- A concrete override file redefining key `B`. -/
def wOverrideLines : List (List Char) := ["B=3".toList]

/-- A concrete filesystem with both a local source and an override source. -/
def wFs : Fs :=
  { localEnv := some wLocalLines
    files := fun p => if p = "/etc/x/.env".toList then some wOverrideLines else none }

/-- Witness for C2 at a concrete pair of sources: the key defined by both
resolves to the override's value, and the key only the local source
defines keeps the local value. -/
theorem claim_C2_override_precedence_witness :
    (loadEnv emptyEnv wFs).1 "B".toList = some "3".toList
    ∧ (loadEnv emptyEnv wFs).1 "A".toList = some "1".toList := by
  have h := claim_C2_override_precedence emptyEnv wFs wLocalLines wOverrideLines
    rfl (by decide) (by decide)
  exact ⟨h.2.1 "B".toList "3".toList (by decide),
    h.2.2.1 "A".toList "1".toList (by decide) (by decide)⟩

/-- C6: when there is no local `.env` and no file exists at any override
path, the process fails with the distinct no-configuration error, exits
with code 1, and runs no pipeline step at all. -/
theorem claim_C6_no_configuration_found (e0 : Env) (fs : Fs) (w : World)
    (hL : fs.localEnv = none) (hf : ∀ p, fs.files p = none) :
    mainProgram e0 fs w =
      { exit := 1, events := [], error := some .noConfigurationFound } := by
  have h1 : loadEnv e0 fs = (e0, false) := by
    unfold loadEnv loadEnvFallback
    rw [hL]
    simp [hf]
  unfold mainProgram
  rw [h1]

/-- A world in which every external command succeeds with empty output and
no manifest template exists. -/
def wAllOkNoManifest : World :=
  { run := fun _ => .ok [], manifestPrimary := none, manifestFallback := none }

/-- Witness for C6: the empty environment and an empty filesystem yield
exactly the no-configuration failure. -/
theorem claim_C6_no_configuration_found_witness :
    mainProgram emptyEnv { localEnv := none, files := fun _ => none } wAllOkNoManifest =
      { exit := 1, events := [], error := some .noConfigurationFound } :=
  claim_C6_no_configuration_found emptyEnv _ wAllOkNoManifest rfl (fun _ => rfl)

/-! ## C3: required-field validation -/

/-- An environment that explicitly sets the service name to the empty
string while providing token, owner and domain. -/
def envEmptyService : Env :=
  envSet (envSet (envSet (envSet emptyEnv
    "DEPLOY_SERVICE_NAME".toList [])
    "GITHUB_TOKEN".toList "t0ken".toList)
    "DEPLOY_GITHUB_OWNER".toList "acme".toList)
    "DEPLOY_DOMAIN".toList "shop.example.com".toList

/-- An environment in which both the token and the domain are missing. -/
def envTwoMissing : Env :=
  envSet emptyEnv "DEPLOY_GITHUB_OWNER".toList "acme".toList

/-- Counterexample to C3 as stated: the code does not validate five
required fields. With the service name explicitly set to the empty string
(which also empties the namespace via its default) but token, owner and
domain present, resolution produces an empty service name and an empty
namespace yet validation passes and the program proceeds; and with two of
the checked fields missing at once, the single reported field is the
token — the error does not identify each missing field. -/
theorem claim_C3_counterexample :
    (resolveConfig envEmptyService).serviceName = []
    ∧ (resolveConfig envEmptyService).namespc = []
    ∧ validateConfig (resolveConfig envEmptyService) = none
    ∧ (resolveConfig envTwoMissing).githubToken = []
    ∧ (resolveConfig envTwoMissing).domain = []
    ∧ validateConfig (resolveConfig envTwoMissing) = some "GITHUB_TOKEN".toList := by
  decide

/-- C3 as amended: after resolution exactly three fields are validated —
publishing credential, owner identity and domain, in that order; the
program proceeds past resolution if and only if those three are non-empty,
and on failure it reports precisely the first empty one of the three (not
every missing field; service name and namespace are never validated). -/
theorem claim_C3_required_fields (e : Env) :
    (validateConfig (resolveConfig e) = none ↔
      ((resolveConfig e).githubToken ≠ [] ∧ (resolveConfig e).githubOwner ≠ []
        ∧ (resolveConfig e).domain ≠ []))
    ∧ (∀ f, validateConfig (resolveConfig e) = some f →
        (f = "GITHUB_TOKEN".toList ∧ (resolveConfig e).githubToken = [])
        ∨ (f = "DEPLOY_GITHUB_OWNER".toList ∧ (resolveConfig e).githubToken ≠ []
            ∧ (resolveConfig e).githubOwner = [])
        ∨ (f = "DEPLOY_DOMAIN".toList ∧ (resolveConfig e).githubToken ≠ []
            ∧ (resolveConfig e).githubOwner ≠ [] ∧ (resolveConfig e).domain = [])) := by
  constructor
  · unfold validateConfig
    split_ifs <;> simp_all
  · intro f hf
    unfold validateConfig at hf
    split_ifs at hf <;> simp_all

/-- Witness for C3 (amended) at the empty environment: the token is the
first missing checked field, and validation reports exactly it. -/
theorem claim_C3_required_fields_witness :
    ("GITHUB_TOKEN".toList = "GITHUB_TOKEN".toList
        ∧ (resolveConfig emptyEnv).githubToken = [])
    ∨ ("GITHUB_TOKEN".toList = "DEPLOY_GITHUB_OWNER".toList
        ∧ (resolveConfig emptyEnv).githubToken ≠ []
        ∧ (resolveConfig emptyEnv).githubOwner = [])
    ∨ ("GITHUB_TOKEN".toList = "DEPLOY_DOMAIN".toList
        ∧ (resolveConfig emptyEnv).githubToken ≠ []
        ∧ (resolveConfig emptyEnv).githubOwner ≠ []
        ∧ (resolveConfig emptyEnv).domain = []) :=
  (claim_C3_required_fields emptyEnv).2 "GITHUB_TOKEN".toList (by decide)

/-! ## Exhaustive case analysis of one pipeline run -/

/-- The full event list of a run in which every step succeeds. -/
def okEvents (c : Config) (w : World) : List Event :=
  [⟨1, gitCmd, true⟩, ⟨2, buildCmd c (shaOf w), true⟩, ⟨3, loginCmd c, true⟩,
    ⟨4, pushCmd (imageTag c (shaOf w)), true⟩, ⟨4, pushCmd (imageLatest c), true⟩,
    ⟨5, nsCmd c, true⟩, ⟨6, secretCmd c, true⟩, ⟨7, applyCmd, true⟩,
    ⟨8, rolloutCmd c, true⟩]

/-- Every run of `deploy` matches exactly one of eleven shapes: a failure
at one of the eight steps (with step 4 failing at either push and step 7
failing at either the lookup or the apply), or full success. Each shape
records the exact event list, step trace, applied document and failure. -/
theorem deploy_cases (c : Config) (w : World) :
    ((w.run gitCmd).isOk = false ∧ deploy c w =
      { events := [⟨1, gitCmd, false⟩], steps := [(1, false)], applied := none,
        failure := some (.cmdFailed gitCmd ((w.run gitCmd).stderr)) })
    ∨ ((w.run gitCmd).isOk = true
        ∧ (w.run (buildCmd c (shaOf w))).isOk = false ∧ deploy c w =
      { events := [⟨1, gitCmd, true⟩, ⟨2, buildCmd c (shaOf w), false⟩],
        steps := [(1, true), (2, false)], applied := none,
        failure := some (.cmdFailed (buildCmd c (shaOf w))
          ((w.run (buildCmd c (shaOf w))).stderr)) })
    ∨ ((w.run gitCmd).isOk = true ∧ (w.run (buildCmd c (shaOf w))).isOk = true
        ∧ (w.run (loginCmd c)).isOk = false ∧ deploy c w =
      { events := [⟨1, gitCmd, true⟩, ⟨2, buildCmd c (shaOf w), true⟩,
          ⟨3, loginCmd c, false⟩],
        steps := [(1, true), (2, true), (3, false)], applied := none,
        failure := some (.cmdFailed (loginCmd c) ((w.run (loginCmd c)).stderr)) })
    ∨ ((w.run gitCmd).isOk = true ∧ (w.run (buildCmd c (shaOf w))).isOk = true
        ∧ (w.run (loginCmd c)).isOk = true
        ∧ (w.run (pushCmd (imageTag c (shaOf w)))).isOk = false ∧ deploy c w =
      { events := [⟨1, gitCmd, true⟩, ⟨2, buildCmd c (shaOf w), true⟩,
          ⟨3, loginCmd c, true⟩, ⟨4, pushCmd (imageTag c (shaOf w)), false⟩],
        steps := [(1, true), (2, true), (3, true), (4, false)], applied := none,
        failure := some (.cmdFailed (pushCmd (imageTag c (shaOf w)))
          ((w.run (pushCmd (imageTag c (shaOf w)))).stderr)) })
    ∨ ((w.run gitCmd).isOk = true ∧ (w.run (buildCmd c (shaOf w))).isOk = true
        ∧ (w.run (loginCmd c)).isOk = true
        ∧ (w.run (pushCmd (imageTag c (shaOf w)))).isOk = true
        ∧ (w.run (pushCmd (imageLatest c))).isOk = false ∧ deploy c w =
      { events := [⟨1, gitCmd, true⟩, ⟨2, buildCmd c (shaOf w), true⟩,
          ⟨3, loginCmd c, true⟩, ⟨4, pushCmd (imageTag c (shaOf w)), true⟩,
          ⟨4, pushCmd (imageLatest c), false⟩],
        steps := [(1, true), (2, true), (3, true), (4, false)], applied := none,
        failure := some (.cmdFailed (pushCmd (imageLatest c))
          ((w.run (pushCmd (imageLatest c))).stderr)) })
    ∨ ((w.run gitCmd).isOk = true ∧ (w.run (buildCmd c (shaOf w))).isOk = true
        ∧ (w.run (loginCmd c)).isOk = true
        ∧ (w.run (pushCmd (imageTag c (shaOf w)))).isOk = true
        ∧ (w.run (pushCmd (imageLatest c))).isOk = true
        ∧ (w.run (nsCmd c)).isOk = false ∧ deploy c w =
      { events := [⟨1, gitCmd, true⟩, ⟨2, buildCmd c (shaOf w), true⟩,
          ⟨3, loginCmd c, true⟩, ⟨4, pushCmd (imageTag c (shaOf w)), true⟩,
          ⟨4, pushCmd (imageLatest c), true⟩, ⟨5, nsCmd c, false⟩],
        steps := [(1, true), (2, true), (3, true), (4, true), (5, false)],
        applied := none,
        failure := some (.cmdFailed (nsCmd c) ((w.run (nsCmd c)).stderr)) })
    ∨ ((w.run gitCmd).isOk = true ∧ (w.run (buildCmd c (shaOf w))).isOk = true
        ∧ (w.run (loginCmd c)).isOk = true
        ∧ (w.run (pushCmd (imageTag c (shaOf w)))).isOk = true
        ∧ (w.run (pushCmd (imageLatest c))).isOk = true
        ∧ (w.run (nsCmd c)).isOk = true
        ∧ (w.run (secretCmd c)).isOk = false ∧ deploy c w =
      { events := [⟨1, gitCmd, true⟩, ⟨2, buildCmd c (shaOf w), true⟩,
          ⟨3, loginCmd c, true⟩, ⟨4, pushCmd (imageTag c (shaOf w)), true⟩,
          ⟨4, pushCmd (imageLatest c), true⟩, ⟨5, nsCmd c, true⟩,
          ⟨6, secretCmd c, false⟩],
        steps := [(1, true), (2, true), (3, true), (4, true), (5, true), (6, false)],
        applied := none,
        failure := some (.cmdFailed (secretCmd c) ((w.run (secretCmd c)).stderr)) })
    ∨ ((w.run gitCmd).isOk = true ∧ (w.run (buildCmd c (shaOf w))).isOk = true
        ∧ (w.run (loginCmd c)).isOk = true
        ∧ (w.run (pushCmd (imageTag c (shaOf w)))).isOk = true
        ∧ (w.run (pushCmd (imageLatest c))).isOk = true
        ∧ (w.run (nsCmd c)).isOk = true ∧ (w.run (secretCmd c)).isOk = true
        ∧ manifestLookup w = none ∧ deploy c w =
      { events := [⟨1, gitCmd, true⟩, ⟨2, buildCmd c (shaOf w), true⟩,
          ⟨3, loginCmd c, true⟩, ⟨4, pushCmd (imageTag c (shaOf w)), true⟩,
          ⟨4, pushCmd (imageLatest c), true⟩, ⟨5, nsCmd c, true⟩,
          ⟨6, secretCmd c, true⟩],
        steps := [(1, true), (2, true), (3, true), (4, true), (5, true), (6, true),
          (7, false)],
        applied := none,
        failure := some (.manifestNotFound (fallbackManifestPath c)) })
    ∨ (∃ m, (w.run gitCmd).isOk = true ∧ (w.run (buildCmd c (shaOf w))).isOk = true
        ∧ (w.run (loginCmd c)).isOk = true
        ∧ (w.run (pushCmd (imageTag c (shaOf w)))).isOk = true
        ∧ (w.run (pushCmd (imageLatest c))).isOk = true
        ∧ (w.run (nsCmd c)).isOk = true ∧ (w.run (secretCmd c)).isOk = true
        ∧ manifestLookup w = some m ∧ (w.run applyCmd).isOk = false ∧ deploy c w =
      { events := [⟨1, gitCmd, true⟩, ⟨2, buildCmd c (shaOf w), true⟩,
          ⟨3, loginCmd c, true⟩, ⟨4, pushCmd (imageTag c (shaOf w)), true⟩,
          ⟨4, pushCmd (imageLatest c), true⟩, ⟨5, nsCmd c, true⟩,
          ⟨6, secretCmd c, true⟩, ⟨7, applyCmd, false⟩],
        steps := [(1, true), (2, true), (3, true), (4, true), (5, true), (6, true),
          (7, false)],
        applied := some (renderManifest c.serviceName c.namespc
          (imageTag c (shaOf w)) c.domain m),
        failure := some (.cmdFailed applyCmd ((w.run applyCmd).stderr)) })
    ∨ (∃ m, (w.run gitCmd).isOk = true ∧ (w.run (buildCmd c (shaOf w))).isOk = true
        ∧ (w.run (loginCmd c)).isOk = true
        ∧ (w.run (pushCmd (imageTag c (shaOf w)))).isOk = true
        ∧ (w.run (pushCmd (imageLatest c))).isOk = true
        ∧ (w.run (nsCmd c)).isOk = true ∧ (w.run (secretCmd c)).isOk = true
        ∧ manifestLookup w = some m ∧ (w.run applyCmd).isOk = true
        ∧ (w.run (rolloutCmd c)).isOk = false ∧ deploy c w =
      { events := [⟨1, gitCmd, true⟩, ⟨2, buildCmd c (shaOf w), true⟩,
          ⟨3, loginCmd c, true⟩, ⟨4, pushCmd (imageTag c (shaOf w)), true⟩,
          ⟨4, pushCmd (imageLatest c), true⟩, ⟨5, nsCmd c, true⟩,
          ⟨6, secretCmd c, true⟩, ⟨7, applyCmd, true⟩, ⟨8, rolloutCmd c, false⟩],
        steps := [(1, true), (2, true), (3, true), (4, true), (5, true), (6, true),
          (7, true), (8, false)],
        applied := some (renderManifest c.serviceName c.namespc
          (imageTag c (shaOf w)) c.domain m),
        failure := some (.cmdFailed (rolloutCmd c) ((w.run (rolloutCmd c)).stderr)) })
    ∨ (∃ m, (w.run gitCmd).isOk = true ∧ (w.run (buildCmd c (shaOf w))).isOk = true
        ∧ (w.run (loginCmd c)).isOk = true
        ∧ (w.run (pushCmd (imageTag c (shaOf w)))).isOk = true
        ∧ (w.run (pushCmd (imageLatest c))).isOk = true
        ∧ (w.run (nsCmd c)).isOk = true ∧ (w.run (secretCmd c)).isOk = true
        ∧ manifestLookup w = some m ∧ (w.run applyCmd).isOk = true
        ∧ (w.run (rolloutCmd c)).isOk = true ∧ deploy c w =
      { events := okEvents c w,
        steps := [(1, true), (2, true), (3, true), (4, true), (5, true), (6, true),
          (7, true), (8, true)],
        applied := some (renderManifest c.serviceName c.namespc
          (imageTag c (shaOf w)) c.domain m),
        failure := none }) := by
  by_cases h1 : (w.run gitCmd).isOk
  case neg =>
    exact Or.inl ⟨by simp [h1], by simp [deploy, h1]⟩
  by_cases h2 : (w.run (buildCmd c (shaOf w))).isOk
  case neg =>
    refine Or.inr (Or.inl ⟨h1, by simp [h2], ?_⟩)
    simp [deploy, h1, stepRun, h2, consRun]
  by_cases h3 : (w.run (loginCmd c)).isOk
  case neg =>
    refine Or.inr (Or.inr (Or.inl ⟨h1, h2, by simp [h3], ?_⟩))
    simp [deploy, h1, stepRun, h2, h3, consRun]
  by_cases h4 : (w.run (pushCmd (imageTag c (shaOf w)))).isOk
  case neg =>
    refine Or.inr (Or.inr (Or.inr (Or.inl ⟨h1, h2, h3, by simp [h4], ?_⟩)))
    simp [deploy, h1, stepRun, h2, h3, pushStep, h4, consRun]
  by_cases h5 : (w.run (pushCmd (imageLatest c))).isOk
  case neg =>
    refine Or.inr (Or.inr (Or.inr (Or.inr (Or.inl
      ⟨h1, h2, h3, h4, by simp [h5], ?_⟩))))
    simp [deploy, h1, stepRun, h2, h3, pushStep, h4, h5, consRun]
  by_cases h6 : (w.run (nsCmd c)).isOk
  case neg =>
    refine Or.inr (Or.inr (Or.inr (Or.inr (Or.inr (Or.inl
      ⟨h1, h2, h3, h4, h5, by simp [h6], ?_⟩)))))
    simp [deploy, h1, stepRun, h2, h3, pushStep, h4, h5, h6, consRun]
  by_cases h7 : (w.run (secretCmd c)).isOk
  case neg =>
    refine Or.inr (Or.inr (Or.inr (Or.inr (Or.inr (Or.inr (Or.inl
      ⟨h1, h2, h3, h4, h5, h6, by simp [h7], ?_⟩))))))
    simp [deploy, h1, stepRun, h2, h3, pushStep, h4, h5, h6, h7, consRun]
  rcases Option.eq_none_or_eq_some (manifestLookup w) with hm | ⟨m, hm⟩
  · 
    refine Or.inr (Or.inr (Or.inr (Or.inr (Or.inr (Or.inr (Or.inr (Or.inl
      ⟨h1, h2, h3, h4, h5, h6, h7, hm, ?_⟩)))))))
    simp [deploy, h1, stepRun, h2, h3, pushStep, h4, h5, h6, h7, manifestStep,
      hm, consRun]
  · by_cases h8 : (w.run applyCmd).isOk
    case neg =>
      refine Or.inr (Or.inr (Or.inr (Or.inr (Or.inr (Or.inr (Or.inr (Or.inr (Or.inl
        ⟨m, h1, h2, h3, h4, h5, h6, h7, hm, by simp [h8], ?_⟩))))))))
      simp [deploy, h1, stepRun, h2, h3, pushStep, h4, h5, h6, h7, manifestStep,
        hm, h8, consRun]
    by_cases h9 : (w.run (rolloutCmd c)).isOk
    case neg =>
      refine Or.inr (Or.inr (Or.inr (Or.inr (Or.inr (Or.inr (Or.inr (Or.inr (Or.inr
        (Or.inl ⟨m, h1, h2, h3, h4, h5, h6, h7, hm, h8, by simp [h9], ?_⟩)))))))))
      simp [deploy, h1, stepRun, h2, h3, pushStep, h4, h5, h6, h7, manifestStep,
        hm, h8, rolloutStep, h9, consRun]
    refine Or.inr (Or.inr (Or.inr (Or.inr (Or.inr (Or.inr (Or.inr (Or.inr (Or.inr
      (Or.inr ⟨m, h1, h2, h3, h4, h5, h6, h7, hm, h8, h9, ?_⟩)))))))))
    simp [deploy, h1, stepRun, h2, h3, pushStep, h4, h5, h6, h7, manifestStep,
      hm, h8, rolloutStep, h9, consRun, okEvents]

/-! ## Step-trace counting -/

/-- How many entries of the step trace of a run record step `i` with
success flag `b`. -/
def countStep (r : Run) (i : Nat) (b : Bool) : Nat :=
  (r.steps.filter (fun p => p.1 = i ∧ p.2 = b)).length

/-- Counting matching entries in a block of consecutive successful steps. -/
theorem filter_mapRange (s n i : Nat) (b : Bool) :
    (((List.range' s n).map (fun j => (j, true))).filter
        (fun p => p.1 = i ∧ p.2 = b)).length =
      if s ≤ i ∧ i < s + n ∧ b = true then 1 else 0 := by
  cases b with
  | false =>
    induction n generalizing s with
    | zero => simp
    | succ n ih =>
      rw [List.range'_succ s n 1]
      simp only [List.map_cons, List.filter_cons, decide_eq_true_eq]
      rw [if_neg (fun hc => absurd hc.2 (by simp)), ih (s + 1),
        if_neg (fun hc => absurd hc.2.2 (by simp)),
        if_neg (fun hc => absurd hc.2.2 (by simp))]
  | true =>
    induction n generalizing s with
    | zero =>
      simp only [List.range', List.map_nil, List.filter_nil, List.length_nil]
      rw [if_neg (fun hc => by have := hc.1; have := hc.2.1; omega)]
    | succ n ih =>
      rw [List.range'_succ s n 1]
      simp only [List.map_cons, List.filter_cons, decide_eq_true_eq]
      by_cases hsi : s = i
      · subst hsi
        rw [if_pos ⟨rfl, trivial⟩, List.length_cons, ih (s + 1),
          if_neg (fun hc => by have := hc.1; omega),
          if_pos ⟨le_refl s, by omega, trivial⟩]
      · rw [if_neg (fun hc => hsi hc.1), ih (s + 1)]
        split_ifs with h1 h2 h2
        · rfl
        · exact absurd ⟨by have := h1.1; omega, by have := h1.2.1; omega, by trivial⟩ h2
        · exact absurd ⟨by have := h2.1; omega,
            by have := h2.1; have := h2.2.1; omega, by trivial⟩ h1
        · rfl

/-- The count formula for a step trace that fails first at step `k`. -/
theorem countStep_failSteps (k i : Nat) (b : Bool) :
    ((failSteps k).filter (fun p => p.1 = i ∧ p.2 = b)).length =
      (if 1 ≤ i ∧ i < k ∧ b = true then 1 else 0)
        + (if i = k ∧ b = false then 1 else 0) := by
  unfold failSteps
  rw [List.filter_append, List.length_append, filter_mapRange]
  congr 1
  · split_ifs with h1 h2 h2
    · rfl
    · exact absurd ⟨h1.1, by have := h1.1; have := h1.2.1; omega, h1.2.2⟩ h2
    · exact absurd ⟨h2.1, by have := h2.1; have := h2.2.1; omega, h2.2.2⟩ h1
    · rfl
  · simp only [List.filter_cons, List.filter_nil, decide_eq_true_eq]
    by_cases h : k = i ∧ false = b
    · obtain ⟨rfl, rfl⟩ := h
      rw [if_pos ⟨rfl, rfl⟩, if_pos ⟨rfl, rfl⟩]
      rfl
    · rw [if_neg h, if_neg (fun hc => h ⟨hc.1.symm, hc.2.symm⟩)]
      rfl

/-- All the counting facts the step-ordering claim needs about a trace
that fails first at step `k`. -/
theorem failSteps_count_pack (k : Nat) :
    (∀ i, 1 ≤ i → i < k →
      ((failSteps k).filter (fun p => p.1 = i ∧ p.2 = true)).length = 1
        ∧ ((failSteps k).filter (fun p => p.1 = i ∧ p.2 = false)).length = 0)
    ∧ ((failSteps k).filter (fun p => p.1 = k ∧ p.2 = false)).length = 1
    ∧ ((failSteps k).filter (fun p => p.1 = k ∧ p.2 = true)).length = 0
    ∧ (∀ j, k < j →
      ((failSteps k).filter (fun p => p.1 = j ∧ p.2 = true)).length = 0
        ∧ ((failSteps k).filter (fun p => p.1 = j ∧ p.2 = false)).length = 0) := by
  refine ⟨?_, ?_, ?_, ?_⟩
  · intro i h1 h2
    constructor
    · rw [countStep_failSteps, if_pos ⟨h1, h2, rfl⟩,
        if_neg (fun hc => absurd hc.2 (by simp))]
    · rw [countStep_failSteps, if_neg (fun hc => absurd hc.2.2 (by simp)),
        if_neg (fun hc => by have := hc.1; omega)]
  · rw [countStep_failSteps, if_neg (fun hc => by have := hc.2.1; omega),
      if_pos ⟨rfl, rfl⟩]
  · rw [countStep_failSteps, if_neg (fun hc => by have := hc.2.1; omega),
      if_neg (fun hc => absurd hc.2 (by simp))]
  · intro j hj
    constructor
    · rw [countStep_failSteps, if_neg (fun hc => by have := hc.2.1; omega),
        if_neg (fun hc => absurd hc.2 (by simp))]
    · rw [countStep_failSteps, if_neg (fun hc => absurd hc.2.2 (by simp)),
        if_neg (fun hc => by have := hc.1; omega)]

/-- C1: in every run whose first (and only) failure is at step `k`, we
have 1 ≤ k ≤ 8, the step trace is exactly steps 1..k-1 succeeding in
increasing order followed by step `k` failing, each of steps 1..k-1
executed exactly once, step `k` executed exactly once (failing), and no
step after `k` ever executed — the eight steps run strictly in the fixed
order with no reordering or skipping. -/
theorem claim_C1_fail_fast_ordering (c : Config) (w : World) (k : Nat)
    (hf : firstFailStep (deploy c w) = some k) :
    (1 ≤ k ∧ k ≤ 8)
    ∧ (deploy c w).steps = failSteps k
    ∧ (∀ i, 1 ≤ i → i < k → countStep (deploy c w) i true = 1
        ∧ countStep (deploy c w) i false = 0)
    ∧ countStep (deploy c w) k false = 1
    ∧ countStep (deploy c w) k true = 0
    ∧ (∀ j, k < j → countStep (deploy c w) j true = 0
        ∧ countStep (deploy c w) j false = 0) := by
  have leaf : ∀ k0 : Nat, (deploy c w).steps = failSteps k0 → k = k0 →
      1 ≤ k0 → k0 ≤ 8 →
      (1 ≤ k ∧ k ≤ 8)
      ∧ (deploy c w).steps = failSteps k
      ∧ (∀ i, 1 ≤ i → i < k → countStep (deploy c w) i true = 1
          ∧ countStep (deploy c w) i false = 0)
      ∧ countStep (deploy c w) k false = 1
      ∧ countStep (deploy c w) k true = 0
      ∧ (∀ j, k < j → countStep (deploy c w) j true = 0
          ∧ countStep (deploy c w) j false = 0) := by
    intro k0 hs hk hk1 hk8
    subst hk
    refine ⟨⟨hk1, hk8⟩, hs, ?_, ?_, ?_, ?_⟩
    · intro i hi1 hi2
      simp only [countStep, hs]
      exact (failSteps_count_pack k).1 i hi1 hi2
    · simp only [countStep, hs]
      exact (failSteps_count_pack k).2.1
    · simp only [countStep, hs]
      exact (failSteps_count_pack k).2.2.1
    · intro j hj
      simp only [countStep, hs]
      exact (failSteps_count_pack k).2.2.2 j hj
  rcases deploy_cases c w with
    ⟨hg, heq⟩ | ⟨h1, h2, heq⟩ | ⟨h1, h2, h3, heq⟩ | ⟨h1, h2, h3, h4, heq⟩
    | ⟨h1, h2, h3, h4, h5, heq⟩ | ⟨h1, h2, h3, h4, h5, h6, heq⟩
    | ⟨h1, h2, h3, h4, h5, h6, h7, heq⟩ | ⟨h1, h2, h3, h4, h5, h6, h7, hm, heq⟩
    | ⟨m, h1, h2, h3, h4, h5, h6, h7, hm, h8, heq⟩
    | ⟨m, h1, h2, h3, h4, h5, h6, h7, hm, h8, h9, heq⟩
    | ⟨m, h1, h2, h3, h4, h5, h6, h7, hm, h8, h9, heq⟩
  · have hs : (deploy c w).steps = failSteps 1 := by
      rw [heq, show failSteps 1 = [(1, false)] from by decide]
    refine leaf 1 hs ?_ (by decide) (by decide)
    unfold firstFailStep at hf
    rw [hs] at hf
    rw [show (((failSteps 1).find? (fun p => !p.2)).map (fun p => p.1))
      = some 1 from by decide] at hf
    exact (Option.some.inj hf).symm
  · have hs : (deploy c w).steps = failSteps 2 := by
      rw [heq, show failSteps 2 = [(1, true), (2, false)] from by decide]
    refine leaf 2 hs ?_ (by decide) (by decide)
    unfold firstFailStep at hf
    rw [hs] at hf
    rw [show (((failSteps 2).find? (fun p => !p.2)).map (fun p => p.1))
      = some 2 from by decide] at hf
    exact (Option.some.inj hf).symm
  · have hs : (deploy c w).steps = failSteps 3 := by
      rw [heq, show failSteps 3 = [(1, true), (2, true), (3, false)] from by decide]
    refine leaf 3 hs ?_ (by decide) (by decide)
    unfold firstFailStep at hf
    rw [hs] at hf
    rw [show (((failSteps 3).find? (fun p => !p.2)).map (fun p => p.1))
      = some 3 from by decide] at hf
    exact (Option.some.inj hf).symm
  · have hs : (deploy c w).steps = failSteps 4 := by
      rw [heq, show failSteps 4 = [(1, true), (2, true), (3, true), (4, false)] from by decide]
    refine leaf 4 hs ?_ (by decide) (by decide)
    unfold firstFailStep at hf
    rw [hs] at hf
    rw [show (((failSteps 4).find? (fun p => !p.2)).map (fun p => p.1))
      = some 4 from by decide] at hf
    exact (Option.some.inj hf).symm
  · have hs : (deploy c w).steps = failSteps 4 := by
      rw [heq, show failSteps 4 = [(1, true), (2, true), (3, true), (4, false)] from by decide]
    refine leaf 4 hs ?_ (by decide) (by decide)
    unfold firstFailStep at hf
    rw [hs] at hf
    rw [show (((failSteps 4).find? (fun p => !p.2)).map (fun p => p.1))
      = some 4 from by decide] at hf
    exact (Option.some.inj hf).symm
  · have hs : (deploy c w).steps = failSteps 5 := by
      rw [heq, show failSteps 5 = [(1, true), (2, true), (3, true), (4, true), (5, false)] from by decide]
    refine leaf 5 hs ?_ (by decide) (by decide)
    unfold firstFailStep at hf
    rw [hs] at hf
    rw [show (((failSteps 5).find? (fun p => !p.2)).map (fun p => p.1))
      = some 5 from by decide] at hf
    exact (Option.some.inj hf).symm
  · have hs : (deploy c w).steps = failSteps 6 := by
      rw [heq, show failSteps 6 = [(1, true), (2, true), (3, true), (4, true), (5, true), (6, false)] from by decide]
    refine leaf 6 hs ?_ (by decide) (by decide)
    unfold firstFailStep at hf
    rw [hs] at hf
    rw [show (((failSteps 6).find? (fun p => !p.2)).map (fun p => p.1))
      = some 6 from by decide] at hf
    exact (Option.some.inj hf).symm
  · have hs : (deploy c w).steps = failSteps 7 := by
      rw [heq, show failSteps 7 = [(1, true), (2, true), (3, true), (4, true), (5, true), (6, true), (7, false)] from by decide]
    refine leaf 7 hs ?_ (by decide) (by decide)
    unfold firstFailStep at hf
    rw [hs] at hf
    rw [show (((failSteps 7).find? (fun p => !p.2)).map (fun p => p.1))
      = some 7 from by decide] at hf
    exact (Option.some.inj hf).symm
  · have hs : (deploy c w).steps = failSteps 7 := by
      rw [heq, show failSteps 7 = [(1, true), (2, true), (3, true), (4, true), (5, true), (6, true), (7, false)] from by decide]
    refine leaf 7 hs ?_ (by decide) (by decide)
    unfold firstFailStep at hf
    rw [hs] at hf
    rw [show (((failSteps 7).find? (fun p => !p.2)).map (fun p => p.1))
      = some 7 from by decide] at hf
    exact (Option.some.inj hf).symm
  · have hs : (deploy c w).steps = failSteps 8 := by
      rw [heq, show failSteps 8 = [(1, true), (2, true), (3, true), (4, true), (5, true), (6, true), (7, true), (8, false)] from by decide]
    refine leaf 8 hs ?_ (by decide) (by decide)
    unfold firstFailStep at hf
    rw [hs] at hf
    rw [show (((failSteps 8).find? (fun p => !p.2)).map (fun p => p.1))
      = some 8 from by decide] at hf
    exact (Option.some.inj hf).symm
  · exfalso
    have hnone : firstFailStep (deploy c w) = none := by
      unfold firstFailStep
      rw [heq]
      rfl
    rw [hnone] at hf
    exact Option.noConfusion hf

/-- A concrete resolved configuration used by witnesses, matching the
spec's end-to-end scenario (service `shop`, owner `acme`). -/
def cfg0 : Config :=
  { serviceName := "shop".toList
    namespc := "shop".toList
    domain := "shop.example.com".toList
    githubOwner := "acme".toList
    registry := "ghcr.io/acme".toList
    githubToken := "t0ken".toList
    viteDatabaseApiUrl := "https://api.example.com".toList
    viteApiUrl := []
    viteGoogleClientId := [] }

/-- A world in which the very first command (the tag query) fails. -/
def wGitFail : World :=
  { run := fun cmd => if cmd = gitCmd then .err "boom".toList else .ok []
    manifestPrimary := none
    manifestFallback := none }

/-- Witness for C1 at a concrete run failing at step 1: the trace is
exactly one failing step-1 record. -/
theorem claim_C1_fail_fast_ordering_witness :
    (deploy cfg0 wGitFail).steps = failSteps 1
    ∧ countStep (deploy cfg0 wGitFail) 1 false = 1 :=
  ⟨(claim_C1_fail_fast_ordering cfg0 wGitFail 1 (by decide)).2.1,
    (claim_C1_fail_fast_ordering cfg0 wGitFail 1 (by decide)).2.2.2.1⟩

/-- C5: whenever step 5 (namespace provisioning) is entered at all, the
first five command invocations of the run are exactly: the tag query, one
build carrying both derived references, the registry login, and the two
pushes (revision tag then latest tag) — so both references are built and
published before namespace provisioning begins; and the two derived
references are `registry/service:revision` and `registry/service:latest`. -/
theorem claim_C5_two_image_references (c : Config) (w : World) (b : Bool)
    (h5 : (5, b) ∈ (deploy c w).steps) :
    imageTag c (shaOf w)
      = c.registry ++ "/".toList ++ c.serviceName ++ ":".toList ++ shaOf w
    ∧ imageLatest c
      = c.registry ++ "/".toList ++ c.serviceName ++ ":latest".toList
    ∧ (deploy c w).events.take 5 =
      [⟨1, gitCmd, true⟩, ⟨2, buildCmd c (shaOf w), true⟩, ⟨3, loginCmd c, true⟩,
        ⟨4, pushCmd (imageTag c (shaOf w)), true⟩,
        ⟨4, pushCmd (imageLatest c), true⟩]
    ∧ (∀ ev ∈ (deploy c w).events.take 5, ev.step ≠ 5) := by
  have hd1 : imageTag c (shaOf w)
      = c.registry ++ "/".toList ++ c.serviceName ++ ":".toList ++ shaOf w := by
    simp [imageTag, imageName, List.append_assoc]
  have hd2 : imageLatest c
      = c.registry ++ "/".toList ++ c.serviceName ++ ":latest".toList := by
    simp [imageLatest, imageName, List.append_assoc]
  have finish : (deploy c w).events.take 5 =
      [⟨1, gitCmd, true⟩, ⟨2, buildCmd c (shaOf w), true⟩, ⟨3, loginCmd c, true⟩,
        ⟨4, pushCmd (imageTag c (shaOf w)), true⟩,
        ⟨4, pushCmd (imageLatest c), true⟩] →
      imageTag c (shaOf w)
        = c.registry ++ "/".toList ++ c.serviceName ++ ":".toList ++ shaOf w
      ∧ imageLatest c
        = c.registry ++ "/".toList ++ c.serviceName ++ ":latest".toList
      ∧ (deploy c w).events.take 5 =
        [⟨1, gitCmd, true⟩, ⟨2, buildCmd c (shaOf w), true⟩, ⟨3, loginCmd c, true⟩,
          ⟨4, pushCmd (imageTag c (shaOf w)), true⟩,
          ⟨4, pushCmd (imageLatest c), true⟩]
      ∧ (∀ ev ∈ (deploy c w).events.take 5, ev.step ≠ 5) := by
    intro htake
    refine ⟨hd1, hd2, htake, ?_⟩
    intro ev hev
    rw [htake] at hev
    simp only [List.mem_cons, List.not_mem_nil, or_false] at hev
    rcases hev with rfl | rfl | rfl | rfl | rfl <;> simp
  rcases deploy_cases c w with
    ⟨hg, heq⟩ | ⟨h1, h2, heq⟩ | ⟨h1, h2, h3, heq⟩ | ⟨h1, h2, h3, h4, heq⟩
    | ⟨h1, h2, h3, h4, h5a, heq⟩ | ⟨h1, h2, h3, h4, h5a, h6, heq⟩
    | ⟨h1, h2, h3, h4, h5a, h6, h7, heq⟩
    | ⟨h1, h2, h3, h4, h5a, h6, h7, hm, heq⟩
    | ⟨m, h1, h2, h3, h4, h5a, h6, h7, hm, h8, heq⟩
    | ⟨m, h1, h2, h3, h4, h5a, h6, h7, hm, h8, h9, heq⟩
    | ⟨m, h1, h2, h3, h4, h5a, h6, h7, hm, h8, h9, heq⟩
  · rw [heq] at h5
    simp at h5
  · rw [heq] at h5
    simp at h5
  · rw [heq] at h5
    simp at h5
  · rw [heq] at h5
    simp at h5
  · rw [heq] at h5
    simp at h5
  · exact finish (by rw [heq]; rfl)
  · exact finish (by rw [heq]; rfl)
  · exact finish (by rw [heq]; rfl)
  · exact finish (by rw [heq]; rfl)
  · exact finish (by rw [heq]; rfl)
  · exact finish (by rw [heq, okEvents]; rfl)

/-- A concrete manifest template containing all four placeholder tokens. -/
def mTemplate : List Char :=
  "name: DEPLOY_SERVICE_NAME ns: DEPLOY_NAMESPACE image: CONTAINER_IMAGE host: DEPLOY_DOMAIN".toList

/-- A world in which every command succeeds, the tag query prints the
revision `a1b2c3d` followed by a newline, and the primary manifest
template exists. -/
def wAllOk : World :=
  { run := fun _ => .ok "a1b2c3d\n".toList
    manifestPrimary := some mTemplate
    manifestFallback := none }

/-- Witness for C5 at a fully successful concrete run: the first five
invocations are tag query, build, login and the two pushes, and the
revision-tagged reference is exactly `ghcr.io/acme/shop:a1b2c3d`. -/
theorem claim_C5_two_image_references_witness :
    (deploy cfg0 wAllOk).events.take 5 =
      [⟨1, gitCmd, true⟩, ⟨2, buildCmd cfg0 (shaOf wAllOk), true⟩,
        ⟨3, loginCmd cfg0, true⟩,
        ⟨4, pushCmd (imageTag cfg0 (shaOf wAllOk)), true⟩,
        ⟨4, pushCmd (imageLatest cfg0), true⟩]
    ∧ imageTag cfg0 (shaOf wAllOk) = "ghcr.io/acme/shop:a1b2c3d".toList
    ∧ imageLatest cfg0 = "ghcr.io/acme/shop:latest".toList :=
  ⟨(claim_C5_two_image_references cfg0 wAllOk true (by decide)).2.2.1,
    by decide, by decide⟩

/-! ## C7: process exit contract -/

/-- The local `.env` lines used by the C7 counterexample run. -/
def localLines7 : List (List Char) :=
  ["DEPLOY_SERVICE_NAME=shop".toList, "DEPLOY_DOMAIN=shop.example.com".toList,
    "DEPLOY_GITHUB_OWNER=acme".toList, "GITHUB_TOKEN=t0ken".toList]

/-- A filesystem with a valid local `.env` and nothing else. -/
def fs7 : Fs := { localEnv := some localLines7, files := fun _ => none }

/-- Counterexample to C7 as stated: a failing run (missing manifest
template) exits non-zero, but its reported failure carries no command and
no stderr at all — it is the manifest-not-found error, not a command
failure — so not every failure reports "the failing step's command and its
stderr". -/
theorem claim_C7_counterexample :
    (mainProgram emptyEnv fs7 wAllOkNoManifest).exit = 1
    ∧ (mainProgram emptyEnv fs7 wAllOkNoManifest).error
      = some (.pipeline (.manifestNotFound "k8s/shop-deployment.yaml".toList))
    ∧ failureHasCommand (mainProgram emptyEnv fs7 wAllOkNoManifest) = false := by
  decide

/-- C7 as amended: the process exits 0 exactly when no fatal error was
reported; the pipeline reports no failure exactly when all eight steps
completed (so no partial success is ever reported as success); a command
failure's report contains the failing command and, when non-empty, its
stderr; and a manifest-lookup failure's report contains the missing path
instead. -/
theorem claim_C7_exit_contract (e0 : Env) (fs : Fs) (w : World) (c : Config) :
    ((mainProgram e0 fs w).exit = 0 ↔ (mainProgram e0 fs w).error = none)
    ∧ ((deploy c w).failure = none ↔ (deploy c w).steps = okSteps 8)
    ∧ (∀ cmd err, (deploy c w).failure = some (.cmdFailed cmd err) →
        cmd <:+: failureReport (.cmdFailed cmd err)
        ∧ (err ≠ [] → err <:+: failureReport (.cmdFailed cmd err)))
    ∧ (∀ p, (deploy c w).failure = some (.manifestNotFound p) →
        p <:+: failureReport (.manifestNotFound p)) := by
  refine ⟨?_, ?_, ?_, ?_⟩
  · unfold mainProgram
    rcases hle : loadEnv e0 fs with ⟨e, found⟩
    cases found
    · simp
    · cases hv : validateConfig (resolveConfig e)
      · simp only [hv]
        by_cases hfail : (deploy (resolveConfig e) w).failure = none <;>
          simp [hfail]
      · simp [hv]
  · have hok : okSteps 8 = [(1, true), (2, true), (3, true), (4, true), (5, true),
        (6, true), (7, true), (8, true)] := by decide
    rcases deploy_cases c w with
      ⟨hg, heq⟩ | ⟨h1, h2, heq⟩ | ⟨h1, h2, h3, heq⟩ | ⟨h1, h2, h3, h4, heq⟩
      | ⟨h1, h2, h3, h4, h5, heq⟩ | ⟨h1, h2, h3, h4, h5, h6, heq⟩
      | ⟨h1, h2, h3, h4, h5, h6, h7, heq⟩
      | ⟨h1, h2, h3, h4, h5, h6, h7, hm, heq⟩
      | ⟨m, h1, h2, h3, h4, h5, h6, h7, hm, h8, heq⟩
      | ⟨m, h1, h2, h3, h4, h5, h6, h7, hm, h8, h9, heq⟩
      | ⟨m, h1, h2, h3, h4, h5, h6, h7, hm, h8, h9, heq⟩ <;>
      rw [heq, hok] <;> simp
  · intro cmd err hcmd
    constructor
    · exact ⟨"DEPLOYMENT FAILED Command failed: ".toList,
        (if err ≠ [] then " Error: ".toList ++ err else []), rfl⟩
    · intro herr
      refine ⟨"DEPLOYMENT FAILED Command failed: ".toList ++ cmd
        ++ " Error: ".toList, [], ?_⟩
      simp [failureReport, herr, List.append_assoc]
  · intro p hp
    exact ⟨"DEPLOYMENT FAILED: No k8s manifest found at ".toList, [], by
      simp [failureReport]⟩

/-- Witness for C7 (amended) at concrete runs: a failing command's report
contains the command, and a fully successful run reports no failure with
all eight steps completed. -/
theorem claim_C7_exit_contract_witness :
    gitCmd <:+: failureReport (.cmdFailed gitCmd "boom".toList)
    ∧ ((deploy cfg0 wAllOk).failure = none ↔ (deploy cfg0 wAllOk).steps = okSteps 8) :=
  ⟨((claim_C7_exit_contract emptyEnv fs7 wGitFail cfg0).2.2.1 gitCmd
      "boom".toList (by decide)).1,
    (claim_C7_exit_contract emptyEnv fs7 wAllOk cfg0).2.1⟩

/-! ## C8: missing manifest template -/

/-- Counterexample to C8 as stated: when neither template path exists, the
raised error names only the fallback path — the primary path that was
tried first does not appear in the report, so the error does not report
"the paths tried". -/
theorem claim_C8_counterexample :
    (deploy cfg0 wAllOkNoManifest).failure
      = some (.manifestNotFound "k8s/shop-deployment.yaml".toList)
    ∧ fallbackManifestPath cfg0 = "k8s/shop-deployment.yaml".toList
    ∧ ¬ (primaryManifestPath <:+:
        failureReport (.manifestNotFound "k8s/shop-deployment.yaml".toList)) := by
  decide

/-- C8 as amended: when steps 1-6 succeed and no template document exists
at either the primary or the service-name-derived fallback path, step 7
fails with the manifest-not-found error whose report contains the fallback
path (the last path tried) — and only that path. -/
theorem claim_C8_manifest_not_found (c : Config) (w : World)
    (h1 : (w.run gitCmd).isOk = true)
    (h2 : (w.run (buildCmd c (shaOf w))).isOk = true)
    (h3 : (w.run (loginCmd c)).isOk = true)
    (h4 : (w.run (pushCmd (imageTag c (shaOf w)))).isOk = true)
    (h5 : (w.run (pushCmd (imageLatest c))).isOk = true)
    (h6 : (w.run (nsCmd c)).isOk = true)
    (h7 : (w.run (secretCmd c)).isOk = true)
    (hp : w.manifestPrimary = none) (hfb : w.manifestFallback = none) :
    (deploy c w).failure = some (.manifestNotFound (fallbackManifestPath c))
    ∧ fallbackManifestPath c
      <:+: failureReport (.manifestNotFound (fallbackManifestPath c))
    ∧ (deploy c w).steps = failSteps 7 := by
  have hm : manifestLookup w = none := by
    unfold manifestLookup
    rw [hp, hfb]
  have heq : deploy c w =
      { events := [⟨1, gitCmd, true⟩, ⟨2, buildCmd c (shaOf w), true⟩,
          ⟨3, loginCmd c, true⟩, ⟨4, pushCmd (imageTag c (shaOf w)), true⟩,
          ⟨4, pushCmd (imageLatest c), true⟩, ⟨5, nsCmd c, true⟩,
          ⟨6, secretCmd c, true⟩],
        steps := [(1, true), (2, true), (3, true), (4, true), (5, true), (6, true),
          (7, false)],
        applied := none,
        failure := some (.manifestNotFound (fallbackManifestPath c)) } := by
    simp [deploy, h1, stepRun, h2, h3, pushStep, h4, h5, h6, h7, manifestStep,
      hm, consRun]
  refine ⟨by rw [heq], ?_, by
    rw [heq, show failSteps 7 = [(1, true), (2, true), (3, true), (4, true),
      (5, true), (6, true), (7, false)] from by decide]⟩
  exact ⟨"DEPLOYMENT FAILED: No k8s manifest found at ".toList, [], by
    simp [failureReport]⟩

/-- Witness for C8 (amended) at a concrete run: both template paths are
absent and the failure is the manifest-not-found error carrying the
fallback path. -/
theorem claim_C8_manifest_not_found_witness :
    (deploy cfg0 wAllOkNoManifest).failure
      = some (.manifestNotFound (fallbackManifestPath cfg0))
    ∧ fallbackManifestPath cfg0
      <:+: failureReport (.manifestNotFound (fallbackManifestPath cfg0)) :=
  ⟨(claim_C8_manifest_not_found cfg0 wAllOkNoManifest rfl rfl rfl rfl rfl rfl rfl
      rfl rfl).1,
    (claim_C8_manifest_not_found cfg0 wAllOkNoManifest rfl rfl rfl rfl rfl rfl rfl
      rfl rfl).2.1⟩

/-! ## C9: build-time variables -/

/-- Two lists with a common index at which they differ stay different
under arbitrary appends. -/
theorem append_ne_of_ne_at (l1 l2 : List Char) (i : Nat)
    (hi1 : i < l1.length) (hi2 : i < l2.length)
    (hne : l1.get ⟨i, hi1⟩ ≠ l2.get ⟨i, hi2⟩) (a b : List Char) :
    l1 ++ a ≠ l2 ++ b := by
  intro h
  have h' := congrArg (fun l => l[i]?) h
  simp only at h'
  rw [List.getElem?_append, if_pos hi1, List.getElem?_append, if_pos hi2,
    List.getElem?_eq_getElem hi1, List.getElem?_eq_getElem hi2] at h'
  exact hne (Option.some.inj h')

/-- A build-arg fragment determines its value given its (known) name. -/
theorem buildArg_inj (n v v' : List Char) :
    buildArg n v = buildArg n v' ↔ v = v' := by
  constructor
  · intro h
    unfold buildArg at h
    exact List.append_cancel_left h
  · intro h
    rw [h]

/-- Fragments for distinct build-time variables are never equal. -/
theorem buildArg_db_ne_api (v v' : List Char) :
    buildArg nameDB v ≠ buildArg nameAPI v' := by
  have h : buildArg nameDB v
      = "--build-arg VITE_DATABASE_API_URL=".toList ++ v := rfl
  have h' : buildArg nameAPI v'
      = "--build-arg VITE_API_URL=".toList ++ v' := rfl
  rw [h, h']
  exact append_ne_of_ne_at _ _ 17 (by decide) (by decide) (by decide) v v'

/-- Fragments for distinct build-time variables are never equal. -/
theorem buildArg_db_ne_gc (v v' : List Char) :
    buildArg nameDB v
      ≠ buildArg nameGC v' := by
  have h : buildArg nameDB v
      = "--build-arg VITE_DATABASE_API_URL=".toList ++ v := rfl
  have h' : buildArg nameGC v'
      = "--build-arg VITE_GOOGLE_CLIENT_ID=".toList ++ v' := rfl
  rw [h, h']
  exact append_ne_of_ne_at _ _ 17 (by decide) (by decide) (by decide) v v'

/-- Fragments for distinct build-time variables are never equal. -/
theorem buildArg_api_ne_gc (v v' : List Char) :
    buildArg nameAPI v
      ≠ buildArg nameGC v' := by
  have h : buildArg nameAPI v
      = "--build-arg VITE_API_URL=".toList ++ v := rfl
  have h' : buildArg nameGC v'
      = "--build-arg VITE_GOOGLE_CLIENT_ID=".toList ++ v' := rfl
  rw [h, h']
  exact append_ne_of_ne_at _ _ 17 (by decide) (by decide) (by decide) v v'

/-- Symmetric form of `buildArg_db_ne_api`. -/
theorem buildArg_api_ne_db (v v' : List Char) :
    buildArg nameAPI v
      ≠ buildArg nameDB v' :=
  (buildArg_db_ne_api v' v).symm

/-- Symmetric form of `buildArg_db_ne_gc`. -/
theorem buildArg_gc_ne_db (v v' : List Char) :
    buildArg nameGC v
      ≠ buildArg nameDB v' :=
  (buildArg_db_ne_gc v' v).symm

/-- Symmetric form of `buildArg_api_ne_gc`. -/
theorem buildArg_gc_ne_api (v v' : List Char) :
    buildArg nameGC v
      ≠ buildArg nameAPI v' :=
  (buildArg_api_ne_gc v' v).symm

/-- C9: the build invocation's argument list contains the `--build-arg`
fragment for a build-time variable exactly when that variable's resolved
value is non-empty, the fragment always carries the variable's resolved
(non-empty) value — an unset or empty variable contributes nothing — and
the docker build command line embeds exactly this argument list together
with the two image tags. -/
theorem claim_C9_build_args (c : Config) (sha : List Char) :
    buildCmd c sha = "docker build --platform linux/amd64 ".toList
      ++ List.intercalate [' '] (buildArgs c)
      ++ " -t ".toList ++ imageTag c sha
      ++ " -t ".toList ++ imageLatest c ++ " .".toList
    ∧ (buildArg nameDB c.viteDatabaseApiUrl ∈ buildArgs c
        ↔ c.viteDatabaseApiUrl ≠ [])
    ∧ (buildArg nameAPI c.viteApiUrl ∈ buildArgs c
        ↔ c.viteApiUrl ≠ [])
    ∧ (buildArg nameGC c.viteGoogleClientId ∈ buildArgs c
        ↔ c.viteGoogleClientId ≠ [])
    ∧ (∀ v, buildArg nameDB v ∈ buildArgs c →
        v = c.viteDatabaseApiUrl ∧ v ≠ [])
    ∧ (∀ v, buildArg nameAPI v ∈ buildArgs c →
        v = c.viteApiUrl ∧ v ≠ [])
    ∧ (∀ v, buildArg nameGC v ∈ buildArgs c →
        v = c.viteGoogleClientId ∧ v ≠ []) := by
  by_cases hdb : c.viteDatabaseApiUrl = [] <;>
    by_cases hapi : c.viteApiUrl = [] <;>
      by_cases hgc : c.viteGoogleClientId = [] <;>
        refine ⟨rfl, ?_, ?_, ?_, ?_, ?_, ?_⟩ <;>
          simp [buildArgs, hdb, hapi, hgc, buildArg_inj, buildArg_db_ne_api,
            buildArg_db_ne_gc, buildArg_api_ne_gc, buildArg_api_ne_db,
            buildArg_gc_ne_db, buildArg_gc_ne_api]

/-- Witness for C9 at the concrete configuration: the non-empty API-URL
variable contributes its fragment, the empty second endpoint variable
contributes nothing. -/
theorem claim_C9_build_args_witness :
    buildArg nameDB cfg0.viteDatabaseApiUrl ∈ buildArgs cfg0
    ∧ buildArg nameAPI cfg0.viteApiUrl ∉ buildArgs cfg0 :=
  ⟨(claim_C9_build_args cfg0 []).2.1.mpr (by decide),
    fun h => absurd ((claim_C9_build_args cfg0 []).2.2.1.mp h) (by decide)⟩

/-! ## Placeholder-substitution lemmas (C4, C10) -/

/-- Join a list of chunks with a separator between consecutive chunks. -/
def joinWith (sep : List Char) : List (List Char) → List Char
  | [] => []
  | [a] => a
  | a :: b :: t => a ++ sep ++ joinWith sep (b :: t)

/-- Prepending a character to the first chunk prepends it to the join. -/
theorem joinWith_cons_head (sep : List Char) (c : Char) (ch : List Char)
    (rest : List (List Char)) :
    joinWith sep ((c :: ch) :: rest) = c :: joinWith sep (ch :: rest) := by
  cases rest with
  | nil => rfl
  | cons r t => simp [joinWith, List.cons_append]

/-- The first chunk is a prefix of the join. -/
theorem prefix_joinWith (sep ch : List Char) (rest : List (List Char)) :
    ch <+: joinWith sep (ch :: rest) := by
  cases rest with
  | nil => exact List.prefix_refl ch
  | cons r t =>
    refine ⟨sep ++ joinWith sep (r :: t), ?_⟩
    simp [joinWith, List.append_assoc]

/-- `replaceAll` on a string starting with the pattern: emit the
replacement and continue after the pattern. -/
theorem replaceAll_pos (pat rep s : List Char) (hpat : pat ≠ []) :
    replaceAll pat rep (pat ++ s) = rep ++ replaceAll pat rep s := by
  match pat, hpat with
  | p :: ps, _ =>
    show replaceAllGo p ps rep (p :: (ps ++ s)) = rep ++ replaceAllGo p ps rep s
    have hc : ((p :: ps).isPrefixOf (p :: (ps ++ s))) = true :=
      List.isPrefixOf_iff_prefix.2 ⟨s, rfl⟩
    rw [replaceAllGo, if_pos hc, List.drop_left ps s]

/-- `replaceAll` on a string not starting with the pattern: keep the head
character. -/
theorem replaceAll_neg (pat rep : List Char) (c : Char) (s : List Char)
    (hpat : pat ≠ []) (hpre : ¬ pat <+: (c :: s)) :
    replaceAll pat rep (c :: s) = c :: replaceAll pat rep s := by
  match pat, hpat with
  | p :: ps, _ =>
    show replaceAllGo p ps rep (c :: s) = c :: replaceAllGo p ps rep s
    rw [replaceAllGo]
    rw [if_neg (fun hc => hpre ( List.isPrefixOf_iff_prefix.1 hc))]

/-- A pattern that does not occur in the string is never substituted: the
string is returned unchanged (and no error is raised — the function is
total). -/
theorem replaceAll_no_occurrence (pat rep s : List Char) (hpat : pat ≠ [])
    (h : ¬ pat <:+: s) : replaceAll pat rep s = s := by
  induction s with
  | nil =>
    match pat, hpat with
    | p :: ps, _ =>
      show replaceAllGo p ps rep [] = []
      rw [replaceAllGo]
  | cons c s ih =>
    have hpre : ¬ pat <+: (c :: s) := fun hc => h (hc.isInfix)
    rw [replaceAll_neg pat rep c s hpat hpre,
      ih (fun hc => h (List.infix_cons hc))]

/-- The complete characterisation of one `str.replace` pass: the string
decomposes into pattern-free chunks joined by the pattern, and the result
is exactly the same chunks joined by the replacement — every occurrence of
the pattern is replaced, every other substring (the chunks) is untouched. -/
theorem replaceAll_chunks (pat rep : List Char) (hpat : pat ≠ []) :
    ∀ s, ∃ chunks : List (List Char), chunks ≠ []
      ∧ s = joinWith pat chunks
      ∧ replaceAll pat rep s = joinWith rep chunks
      ∧ ∀ ch ∈ chunks, ¬ pat <:+: ch := by
  have main : ∀ n (s : List Char), s.length ≤ n → ∃ chunks : List (List Char),
      chunks ≠ []
      ∧ s = joinWith pat chunks
      ∧ replaceAll pat rep s = joinWith rep chunks
      ∧ ∀ ch ∈ chunks, ¬ pat <:+: ch := by
    intro n
    induction n with
    | zero =>
      intro s hs
      have hs0 : s = [] := List.eq_nil_of_length_eq_zero (Nat.le_zero.1 hs)
      subst hs0
      refine ⟨[[]], by simp, rfl, ?_, ?_⟩
      · rw [replaceAll_no_occurrence pat rep [] hpat (by simp [List.infix_nil, hpat])]
        rfl
      · intro ch hch
        simp only [List.mem_singleton] at hch
        subst hch
        simp [List.infix_nil, hpat]
    | succ n ih =>
      intro s hs
      by_cases hpre : pat <+: s
      · obtain ⟨s', rfl⟩ := hpre
        have hlen : s'.length ≤ n := by
          rw [List.length_append] at hs
          have hp1 : 0 < pat.length := List.length_pos.2 hpat
          omega
        obtain ⟨chunks, hne, hjoin, hrep, hchunk⟩ := ih s' hlen
        match chunks, hne with
        | ch0 :: rest, _ =>
          refine ⟨[] :: ch0 :: rest, by simp, ?_, ?_, ?_⟩
          · rw [joinWith, ← hjoin]
            simp
          · rw [replaceAll_pos pat rep s' hpat, hrep, joinWith]
            simp
          · intro ch hch
            rcases List.mem_cons.1 hch with rfl | hch
            · simp [List.infix_nil, hpat]
            · exact hchunk ch hch
      · match s with
        | [] =>
          refine ⟨[[]], by simp, rfl, ?_, ?_⟩
          · rw [replaceAll_no_occurrence pat rep [] hpat
              (by simp [List.infix_nil, hpat])]
            rfl
          · intro ch hch
            simp only [List.mem_singleton] at hch
            subst hch
            simp [List.infix_nil, hpat]
        | c :: s' =>
          have hlen : s'.length ≤ n := by
            rw [List.length_cons] at hs
            omega
          obtain ⟨chunks, hne, hjoin, hrep, hchunk⟩ := ih s' hlen
          match chunks, hne with
          | ch0 :: rest, _ =>
            refine ⟨(c :: ch0) :: rest, by simp, ?_, ?_, ?_⟩
            · rw [joinWith_cons_head, ← hjoin]
            · rw [replaceAll_neg pat rep c s' hpat hpre, hrep, joinWith_cons_head]
            · intro ch hch
              rcases List.mem_cons.1 hch with rfl | hch
              · intro hinf
                rcases List.infix_cons_iff.1 hinf with hp | hinf'
                · apply hpre
                  have hc0 : ch0 <+: s' := by
                    have h' := prefix_joinWith pat ch0 rest
                    rw [← hjoin] at h'
                    exact h'
                  exact hp.trans (List.cons_prefix_cons.2 ⟨rfl, hc0⟩)
                · exact hchunk ch0 (List.mem_cons_self ch0 rest) hinf'
              · exact hchunk ch (List.mem_cons_of_mem ch0 hch)
  intro s
  exact main s.length s (le_refl _)

/-- Counterexample to C4 as stated: rendering does not universally replace
each token with its value and leave every other substring of the template
unchanged. A template consisting of exactly the service-name token, with
service-name value `DEPLOY_DOMAIN`, renders to the later domain value
`d.example`, not to the service-name value, because the domain pass
rescans the substituted value; and the template `DEPLOY_NAME` followed by
the service-name token, with the token-free service-name value `SPACE`,
renders to the namespace value `n0` — the template's literal substring
`DEPLOY_NAME` is destroyed because the insertion boundary forms a
namespace token which the next pass replaces. -/
theorem claim_C4_counterexample :
    (renderManifest "DEPLOY_DOMAIN".toList "b0".toList "c0".toList
        "d.example".toList tokSN = "d.example".toList
      ∧ "d.example".toList ≠ "DEPLOY_DOMAIN".toList)
    ∧ (renderManifest "SPACE".toList "n0".toList "c0".toList "d0".toList
        ("DEPLOY_NAME".toList ++ tokSN) = "n0".toList
      ∧ "n0".toList ≠ "DEPLOY_NAME".toList ++ "SPACE".toList) := by
  refine ⟨⟨?_, by decide⟩, ?_, by decide⟩
  · simp [renderManifest, replaceAll, replaceAllGo, tokSN, tokNS, tokIMG, tokDOM]
  · simp [renderManifest, replaceAll, replaceAllGo, tokSN, tokNS, tokIMG, tokDOM]

/-- C4 as amended: rendering is the four substitution passes in the fixed
order service-name, namespace, image-reference, domain, each pass
consuming the previous pass's output; each single pass replaces every
occurrence of its token in that pass's input with its value and leaves
every other substring of that input (the token-free chunks) unchanged; a
token absent from a pass's input is never substituted and no error is
raised — in particular a template containing none of the four tokens
renders completely unchanged — and the spec's subset scenario (a template
containing only the image and domain tokens) renders with exactly those
two replaced. Because each later pass rescans the previous pass's whole
output, the end-to-end render need not preserve the template's other
substrings when a later token occurs in, or is formed at the boundary of,
an inserted value (the counterexample). -/
theorem claim_C4_placeholder_substitution :
    (∀ sn ns img dom t, renderManifest sn ns img dom t
      = replaceAll tokDOM dom (replaceAll tokIMG img (replaceAll tokNS ns
          (replaceAll tokSN sn t))))
    ∧ (∀ pat rep s, pat ≠ [] → ∃ chunks : List (List Char), chunks ≠ []
      ∧ s = joinWith pat chunks
      ∧ replaceAll pat rep s = joinWith rep chunks
      ∧ ∀ ch ∈ chunks, ¬ pat <:+: ch)
    ∧ (∀ sn ns img dom t, ¬ tokSN <:+: t → ¬ tokNS <:+: t → ¬ tokIMG <:+: t →
        ¬ tokDOM <:+: t → renderManifest sn ns img dom t = t)
    ∧ renderManifest "shop".toList "shop".toList "ghcr.io/acme/shop:a1b2c3d".toList
        "shop.example.com".toList
        "image: CONTAINER_IMAGE host: DEPLOY_DOMAIN".toList
      = "image: ghcr.io/acme/shop:a1b2c3d host: shop.example.com".toList := by
  refine ⟨fun sn ns img dom t => rfl,
    fun pat rep s hpat => replaceAll_chunks pat rep hpat s, ?_, ?_⟩
  · intro sn ns img dom t h1 h2 h3 h4
    unfold renderManifest
    rw [replaceAll_no_occurrence tokSN sn t (by decide) h1,
      replaceAll_no_occurrence tokNS ns t (by decide) h2,
      replaceAll_no_occurrence tokIMG img t (by decide) h3,
      replaceAll_no_occurrence tokDOM dom t (by decide) h4]
  · simp [renderManifest, replaceAll, replaceAllGo, tokSN, tokNS, tokIMG, tokDOM]

/-- Witness for C4 (amended) at a token-free concrete template: rendering
is the identity and raises no error. -/
theorem claim_C4_placeholder_substitution_witness :
    renderManifest "shop".toList "shop".toList "img".toList "d.example".toList
      "kind: Deployment replicas: 2".toList
      = "kind: Deployment replicas: 2".toList :=
  claim_C4_placeholder_substitution.2.2.1 "shop".toList "shop".toList "img".toList
    "d.example".toList "kind: Deployment replicas: 2".toList
    (by decide) (by decide) (by decide) (by decide)

/-- C10: the pipeline substitutes the four placeholders sequentially in
the fixed order service-name, namespace, image-reference, domain, each
pass consuming the previous pass's output; consequently a token occurring
inside an earlier replacement value is itself replaced by a later pass, so
the result can differ from a simultaneous single-pass substitution of the
same ordered map; witnessed concretely with a service-name value that
contains the domain token. -/
theorem claim_C10_sequential_substitution :
    (∀ sn ns img dom t, renderManifest sn ns img dom t
      = replaceAll tokDOM dom (replaceAll tokIMG img (replaceAll tokNS ns
          (replaceAll tokSN sn t))))
    ∧ renderManifest "DEPLOY_DOMAIN".toList "ns0".toList "img0".toList
        "d.example".toList "DEPLOY_SERVICE_NAME".toList = "d.example".toList
    ∧ simultaneousSubst
        [(tokSN, "DEPLOY_DOMAIN".toList), (tokNS, "ns0".toList),
          (tokIMG, "img0".toList), (tokDOM, "d.example".toList)]
        "DEPLOY_SERVICE_NAME".toList = "DEPLOY_DOMAIN".toList
    ∧ renderManifest "DEPLOY_DOMAIN".toList "ns0".toList "img0".toList
        "d.example".toList "DEPLOY_SERVICE_NAME".toList
      ≠ simultaneousSubst
        [(tokSN, "DEPLOY_DOMAIN".toList), (tokNS, "ns0".toList),
          (tokIMG, "img0".toList), (tokDOM, "d.example".toList)]
        "DEPLOY_SERVICE_NAME".toList := by
  have hseq : renderManifest "DEPLOY_DOMAIN".toList "ns0".toList "img0".toList
      "d.example".toList "DEPLOY_SERVICE_NAME".toList = "d.example".toList := by
    simp [renderManifest, replaceAll, replaceAllGo, tokSN, tokNS, tokIMG, tokDOM]
  have hsim : simultaneousSubst
      [(tokSN, "DEPLOY_DOMAIN".toList), (tokNS, "ns0".toList),
        (tokIMG, "img0".toList), (tokDOM, "d.example".toList)]
      "DEPLOY_SERVICE_NAME".toList = "DEPLOY_DOMAIN".toList := by decide
  refine ⟨fun sn ns img dom t => rfl, hseq, hsim, ?_⟩
  rw [hseq, hsim]
  decide
